import Mathlib

/-!
Verification development for the crawler-identity verification engine
(bot-verification.py). The Python module is shallowly embedded: pure
functions become Lean functions; network effects (DNS lookups, the HTTP
range fetch) become explicit oracle parameters; the process-wide range
cache becomes explicit state passed in and out; every Python exception
that the code catches becomes an Option branch of the corresponding
oracle. Python dictionaries become association lists (for the static
tables) or a finite partial map (for the mutable cache).
-/

set_option autoImplicit false

namespace BotVerif

/-- Truthiness of an optional string, as the Python bool() conversion used
by the code: None and the empty string are falsy. -/
def pyTruthy : Option String → Bool
  | none => false
  | some s => s ≠ ""

/-- Python value-or: a or b evaluates to a when a is truthy, else to b. -/
def pyOr (a b : Option String) : Option String :=
  if pyTruthy a then a else b

/-- CRAWLER_IP_RANGE_SOURCES: URLs where major search engines publish their
crawler IP ranges. The bingbot entry is present with value None in the
source, which is why it is an association list to Option String. -/
def CRAWLER_IP_RANGE_SOURCES : List (String × Option String) :=
  [("googlebot", some "https://developers.google.com/search/apis/ipranges/googlebot.json"),
   ("google-special-crawlers", some "https://developers.google.com/search/apis/ipranges/special-crawlers.json"),
   ("bingbot", none)]

/-- CRAWLER_RDNS_PATTERNS: expected reverse DNS suffixes per crawler key.
Each source entry is a regular expression matched with re.search and
re.IGNORECASE; every one of them is a dollar-anchored literal domain
suffix, possibly with a group of alternatives. Each regex is embedded as
the list of lowercase literal suffixes it accepts, so one source pattern
becomes one inner list (the yandex and baidu alternations expand to
several suffixes inside a single inner list). -/
def CRAWLER_RDNS_PATTERNS : List (String × List (List String)) :=
  [("googlebot", [["googlebot.com"], ["google.com"]]),
   ("bingbot", [["search.msn.com"]]),
   ("applebot", [["applebot.apple.com"]]),
   ("yandexbot", [["yandex.ru", "yandex.net", "yandex.com"]]),
   ("duckduckbot", [["duckduckgo.com"]]),
   ("baiduspider", [["crawl.baidu.com", "crawl.baidu.jp"]])]

/-- UA_TO_CRAWLER_KEY: User-Agent fragment to crawler identity key, in the
insertion order of the Python dict (iteration order is significant: the
first matching fragment wins). -/
def UA_TO_CRAWLER_KEY : List (String × String) :=
  [("googlebot", "googlebot"),
   ("google-inspectiontool", "googlebot"),
   ("google-read-aloud", "googlebot"),
   ("mediapartners-google", "googlebot"),
   ("bingbot", "bingbot"),
   ("msnbot", "bingbot"),
   ("applebot", "applebot"),
   ("yandexbot", "yandexbot"),
   ("yandex", "yandexbot"),
   ("duckduckbot", "duckduckbot"),
   ("baiduspider", "baiduspider")]

/-- IP_RANGE_CACHE_TTL: cache TTL for IP range lists, 4 hours in seconds. -/
def IP_RANGE_CACHE_TTL : Nat := 4 * 3600

/-- Lowercasing as a character list, embedding the str.lower() calls of
the module (the strings involved are ASCII). -/
def to_lower_chars (s : String) : List Char :=
  s.toList.map Char.toLower

/-- Substring containment over character lists, embedding the Python
membership test of strings (fragment in ua_lower). -/
def infix_of_chars (needle : List Char) : List Char → Bool
  | [] => needle.isEmpty
  | c :: rest => needle.isPrefixOf (c :: rest) || infix_of_chars needle rest

/-- Suffix test over character lists (hay ends with suf). -/
def ends_with_chars (hay suf : List Char) : Bool :=
  List.isPrefixOf suf.reverse hay.reverse

/-- extract_crawler_identity: determine which crawler (if any) a User-Agent
string claims to be, by case-insensitive substring containment against
UA_TO_CRAWLER_KEY; returns the crawler key of the first matching fragment
or none. -/
def extract_crawler_identity (user_agent : String) : Option String :=
  (UA_TO_CRAWLER_KEY.find?
    (fun p => infix_of_chars p.1.toList (to_lower_chars user_agent))).map (fun p => p.2)

/-- The DNS side effects of the module as an oracle: reverse is
reverse_dns_lookup (gethostbyaddr; none when the lookup raises), forward is
forward_dns_lookup (getaddrinfo; the empty list when the lookup raises,
which is exactly what the Python function returns on failure). -/
structure DnsOracle where
  reverse : String → Option String
  forward : String → List String

/-- Matching of one embedded rDNS pattern (a list of alternative literal
suffixes, see CRAWLER_RDNS_PATTERNS) against a hostname: re.search with a
dollar anchor and re.IGNORECASE is a case-insensitive suffix test. -/
def pattern_matches_hostname (alts : List String) (hostname : String) : Bool :=
  alts.any (fun suf => ends_with_chars (to_lower_chars hostname) suf.toList)

/-- The hostname_matches test of verify_rdns: CRAWLER_RDNS_PATTERNS.get
with default [] and any() over the patterns. -/
def hostname_matches (crawler_key hostname : String) : Bool :=
  ((CRAWLER_RDNS_PATTERNS.lookup crawler_key).getD []).any
    (fun pat => pattern_matches_hostname pat hostname)

/-- verify_rdns: verify crawler identity via reverse plus forward DNS.
Reverse-resolve the address; a falsy result (lookup failure, or the empty
string) gives (false, none). Then validate the hostname against the
identity patterns; on mismatch (false, hostname). Then forward-resolve the
hostname and confirm the original address is among the results. -/
def verify_rdns (dns : DnsOracle) (ip crawler_key : String) : Bool × Option String :=
  match dns.reverse ip with
  | none => (false, none)
  | some hostname =>
    if hostname = "" then (false, none)
    else if hostname_matches crawler_key hostname then
      if ip ∈ dns.forward hostname then (true, some hostname)
      else (false, some hostname)
    else (false, some hostname)

/-- One element of the prefixes list of a fetched range document. The two
fields embed the JSON keys ipv4Prefix and ipv6Prefix as read by dict.get
(none when the key is absent). -/
structure CidrEntry where
  ipv4cidr : Option String
  ipv6cidr : Option String

/-- The range cache _ip_range_cache: crawler key to (ranges, cached_at). -/
def RangeCache : Type := String → Option (List String × Nat)

/-- Python dict assignment on the range cache. -/
def cache_update (c : RangeCache) (k : String) (v : List String × Nat) : RangeCache :=
  fun k' => if k' = k then some v else c k'

/-- The parse loop of fetch_ip_ranges over data.get("prefixes", []): for
each entry take ipv4cidr or ipv6cidr (Python or, so an empty string falls
through), keep it when truthy. -/
def extract_ranges_from (data : List CidrEntry) : List String :=
  data.filterMap (fun e =>
    let cidr := pyOr e.ipv4cidr e.ipv6cidr
    if pyTruthy cidr then cidr else none)

/-- The fetch arm of fetch_ip_ranges (everything after the cache-freshness
early return): look up the source URL (dict.get, so none when the key is
absent, and the stored value itself may be None); a falsy URL returns the
empty list without a network call; otherwise issue the fetch (the oracle
returns none when urlopen or json parsing raises) and on success store the
extracted ranges with the current time. The third component counts the
network calls issued (0 or 1). -/
def fetch_fresh (fetch : String → Option (List CidrEntry)) (now : Nat)
    (cache : RangeCache) (crawler_key : String) : List String × RangeCache × Nat :=
  match (CRAWLER_IP_RANGE_SOURCES.lookup crawler_key).join with
  | none => ([], cache, 0)
  | some url =>
    if url = "" then ([], cache, 0)
    else
      match fetch url with
      | none => ([], cache, 1)
      | some data =>
        let ranges := extract_ranges_from data
        (ranges, cache_update cache crawler_key (ranges, now), 1)

/-- fetch_ip_ranges: serve the cached range list while the entry is younger
than IP_RANGE_CACHE_TTL, otherwise fall through to the fetch arm. Returns
(ranges, updated cache, number of network calls issued). -/
def fetch_ip_ranges (fetch : String → Option (List CidrEntry)) (now : Nat)
    (cache : RangeCache) (crawler_key : String) : List String × RangeCache × Nat :=
  match cache crawler_key with
  | some (ranges, cached_at) =>
    if now - cached_at < IP_RANGE_CACHE_TTL then (ranges, cache, 0)
    else fetch_fresh fetch now cache crawler_key
  | none => fetch_fresh fetch now cache crawler_key

/-- The behaviour of the Python ipaddress library as used by
verify_ip_range, abstracted: parseAddr is ipaddress.ip_address (none when
it raises ValueError), parseNet is ipaddress.ip_network with strict=False
(none on ValueError), memNet is the containment test. Addresses are the
integer value of the address; networks are (masked network value, routing
bits kept). -/
structure IpLib where
  parseAddr : String → Option Nat
  parseNet : String → Option (Nat × Nat)
  memNet : Nat → Nat × Nat → Bool

/-- Splitting a character list on a separator character, embedding
str.split as used on the dotted quad and on the CIDR slash. -/
def split_on_char (sep : Char) : List Char → List (List Char)
  | [] => [[]]
  | x :: rest =>
    if x = sep then [] :: split_on_char sep rest
    else
      match split_on_char sep rest with
      | [] => [[x]]
      | h :: t => (x :: h) :: t

/-- Decimal parsing of a digits-only character list (none when empty or a
non-digit appears). -/
def digits_to_nat : List Char → Option Nat
  | [] => none
  | l =>
    if l.all Char.isDigit then
      some (l.foldl (fun n c => n * 10 + (c.toNat - 48)) 0)
    else none

/-- One dotted-quad octet as parsed by ipaddress: decimal digits only, no
leading zero, at most three characters, at most 255. -/
def parseOctet (l : List Char) : Option Nat :=
  match digits_to_nat l with
  | none => none
  | some n =>
    if l.length > 3 then none
    else if l.length > 1 ∧ l.headD '0' = '0' then none
    else if n > 255 then none
    else some n

/-- IPv4 dotted-quad parsing to the integer address value, the IPv4 case
of ipaddress.ip_address. -/
def parseIPv4 (s : String) : Option Nat :=
  match (split_on_char '.' s.toList).map parseOctet with
  | [some a, some b, some c, some d] =>
    some (((a * 256 + b) * 256 + c) * 256 + d)
  | _ => none

/-- IPv4 CIDR parsing, the IPv4 case of ipaddress.ip_network with
strict=False (host bits are masked off); a bare address is a /32. -/
def parseIPv4Net (s : String) : Option (Nat × Nat) :=
  match split_on_char '/' s.toList with
  | [addr] => (parseIPv4 (String.mk addr)).map (fun a => (a, 32))
  | [addr, p] =>
    match parseIPv4 (String.mk addr), digits_to_nat p with
    | some a, some n =>
      if n > 32 then none
      else some (a / 2 ^ (32 - n) * 2 ^ (32 - n), n)
    | _, _ => none
  | _ => none

/-- IPv4 CIDR containment: the routing bits of the address equal those of
the network. -/
def memIPv4 (ip : Nat) (net : Nat × Nat) : Bool :=
  ip / 2 ^ (32 - net.2) = net.1 / 2 ^ (32 - net.2)

/-- Executable IPv4 instantiation of IpLib, modelling the behaviour of the
Python ipaddress library on IPv4 inputs (used for concrete witnesses). -/
def ipv4Lib : IpLib :=
  { parseAddr := parseIPv4, parseNet := parseIPv4Net, memNet := memIPv4 }

/-- verify_ip_range: check whether an address falls within the published
ranges for a crawler. An empty range list means no verification; a
ValueError from ip_address makes the whole check false; a ValueError from
ip_network skips that single entry (continue). Returns the verdict and the
cache as updated by fetch_ip_ranges. -/
def verify_ip_range (lib : IpLib) (fetch : String → Option (List CidrEntry)) (now : Nat)
    (cache : RangeCache) (ip crawler_key : String) : Bool × RangeCache :=
  let fr := fetch_ip_ranges fetch now cache crawler_key
  if fr.1.isEmpty then (false, fr.2.1)
  else
    match lib.parseAddr ip with
    | none => (false, fr.2.1)
    | some ip_obj =>
      (fr.1.any (fun cidr =>
        match lib.parseNet cidr with
        | none => false
        | some network => lib.memNet ip_obj network), fr.2.1)

/-- CrawlerVerificationResult, field for field. -/
structure CrawlerVerificationResult where
  ip_address : String
  user_agent : String
  claimed_crawler : Option String
  rdns_hostname : Option String
  rdns_verified : Bool
  ip_range_verified : Bool
  is_legitimate : Bool
  reason : String

/-- The has_ip_ranges test of is_verified_crawler:
bool(CRAWLER_IP_RANGE_SOURCES.get(claimed_crawler)). -/
def hasRangeSource (crawler_key : String) : Bool :=
  pyTruthy ((CRAWLER_IP_RANGE_SOURCES.lookup crawler_key).join)

/-- The verdict block of is_verified_crawler (the require_both_checks
if/else ladder), producing (is_legitimate, reason). -/
def verdict_and_reason (claimed_crawler : String)
    (rdns_verified ip_range_verified require_both_checks : Bool) : Bool × String :=
  if require_both_checks then
    if hasRangeSource claimed_crawler then
      (rdns_verified && ip_range_verified,
       if rdns_verified && ip_range_verified then "Verified via rDNS and IP range"
       else "Failed one or both verification checks")
    else
      (rdns_verified,
       if rdns_verified then
         "Verified via rDNS (no published IP ranges for " ++ claimed_crawler ++ ")"
       else "rDNS verification failed")
  else
    (rdns_verified || ip_range_verified,
     if rdns_verified && ip_range_verified then "Verified via rDNS and IP range"
     else if rdns_verified then "Verified via rDNS"
     else if ip_range_verified then "Verified via IP range"
     else "Impersonation detected: claims to be " ++ claimed_crawler
          ++ " but verification failed")

/-- is_verified_crawler: classify the User-Agent; an unrecognized agent is
rejected outright with the dedicated reason; otherwise run the rDNS and IP
range checks and combine them with verdict_and_reason. Returns the result
together with the range cache as possibly updated by the range check. -/
def is_verified_crawler (lib : IpLib) (dns : DnsOracle)
    (fetch : String → Option (List CidrEntry)) (now : Nat) (cache : RangeCache)
    (ip_address user_agent : String) (require_both_checks : Bool) :
    CrawlerVerificationResult × RangeCache :=
  match extract_crawler_identity user_agent with
  | none =>
    ({ ip_address := ip_address, user_agent := user_agent, claimed_crawler := none,
       rdns_hostname := none, rdns_verified := false, ip_range_verified := false,
       is_legitimate := false,
       reason := "User-Agent does not claim to be a known search crawler" }, cache)
  | some claimed_crawler =>
    let rr := verify_rdns dns ip_address claimed_crawler
    let vr := verify_ip_range lib fetch now cache ip_address claimed_crawler
    let iv := verdict_and_reason claimed_crawler rr.1 vr.1 require_both_checks
    ({ ip_address := ip_address, user_agent := user_agent,
       claimed_crawler := some claimed_crawler, rdns_hostname := rr.2,
       rdns_verified := rr.1, ip_range_verified := vr.1,
       is_legitimate := iv.1, reason := iv.2 }, vr.2)

/-! Concrete oracles and cache states used by the witness theorems. The
addresses and the CIDR come from the demo block and from the published
Googlebot range example. -/

/-- The googlebot range source URL. -/
def googlebot_url : String :=
  "https://developers.google.com/search/apis/ipranges/googlebot.json"

/-- A cache with no entries. -/
def empty_cache : RangeCache := fun _ => none

/-- A cache holding a googlebot entry fetched at time 0. -/
def stale_cache : RangeCache :=
  fun k => if k = "googlebot" then some (["66.249.64.0/19"], 0) else none

/-- DNS world with a forged reverse record: the reverse name matches the
googlebot patterns but the forward lookup returns a different address. -/
def dns_forged : DnsOracle :=
  { reverse := fun ip => if ip = "5.9.0.1" then some "fake.googlebot.com" else none,
    forward := fun h => if h = "fake.googlebot.com" then ["203.0.113.7"] else [] }

/-- DNS world where the dual lookup confirms the address. -/
def dns_ok : DnsOracle :=
  { reverse := fun ip =>
      if ip = "66.249.66.1" then some "crawl-66-249-66-1.googlebot.com" else none,
    forward := fun h =>
      if h = "crawl-66-249-66-1.googlebot.com" then ["66.249.66.1"] else [] }

/-- DNS world where every lookup fails. -/
def dns_fail : DnsOracle := { reverse := fun _ => none, forward := fun _ => [] }

/-- Network fetch that always fails. -/
def fetch_fail : String → Option (List CidrEntry) := fun _ => none

/-- Network fetch returning the published googlebot range. -/
def fetch_good : String → Option (List CidrEntry) :=
  fun u => if u = googlebot_url then some [⟨some "66.249.64.0/19", none⟩] else none

/-- Network fetch returning a malformed entry followed by a valid one. -/
def fetch_mixed : String → Option (List CidrEntry) :=
  fun u =>
    if u = googlebot_url then
      some [⟨some "not a cidr", none⟩, ⟨some "66.249.64.0/19", none⟩]
    else none

/-- Network fetch returning a different range list (used to observe a
cache refresh). -/
def fetch_other : String → Option (List CidrEntry) :=
  fun u => if u = googlebot_url then some [⟨some "10.0.0.0/8", none⟩] else none

/-- C1: for every source address and declared agent classifying to a known
identity, if the reverse lookup yields a hostname matching the identity
patterns but the forward resolution of that hostname does not contain the
original address, verify_rdns returns (false, the resolved hostname). -/
theorem c1_dual_dns_rejects_forged_reverse (dns : DnsOracle)
    (ip ua crawler_key hostname : String)
    (_hclass : extract_crawler_identity ua = some crawler_key)
    (hrev : dns.reverse ip = some hostname)
    (hne : hostname ≠ "")
    (hmatch : hostname_matches crawler_key hostname = true)
    (hfwd : ip ∉ dns.forward hostname) :
    verify_rdns dns ip crawler_key = (false, some hostname) := by
  unfold verify_rdns
  rw [hrev]
  simp [hne, hmatch, hfwd]

/-- Witness for C1 at the forged-reverse DNS world. -/
theorem c1_witness :
    extract_crawler_identity "Googlebot" = some "googlebot" ∧
    dns_forged.reverse "5.9.0.1" = some "fake.googlebot.com" ∧
    hostname_matches "googlebot" "fake.googlebot.com" = true ∧
    "5.9.0.1" ∉ dns_forged.forward "fake.googlebot.com" ∧
    verify_rdns dns_forged "5.9.0.1" "googlebot" = (false, some "fake.googlebot.com") :=
  ⟨by rfl, by rfl, by rfl, by decide,
   c1_dual_dns_rejects_forged_reverse dns_forged "5.9.0.1" "Googlebot" "googlebot"
     "fake.googlebot.com" (by rfl) (by rfl) (by decide) (by rfl) (by decide)⟩

/-- C2: for a recognized identity under requireBoth = true, the verdict is
the conjunction of the DNS check and the range check when the identity has
a configured range source, and the DNS check alone when it has none (the
range check cannot force a false verdict there). -/
theorem c2_require_both_policy (lib : IpLib) (dns : DnsOracle)
    (fetch : String → Option (List CidrEntry)) (now : Nat) (cache : RangeCache)
    (ip ua crawler_key : String)
    (h : extract_crawler_identity ua = some crawler_key) :
    (hasRangeSource crawler_key = true →
      (is_verified_crawler lib dns fetch now cache ip ua true).1.is_legitimate =
        ((is_verified_crawler lib dns fetch now cache ip ua true).1.rdns_verified &&
         (is_verified_crawler lib dns fetch now cache ip ua true).1.ip_range_verified)) ∧
    (hasRangeSource crawler_key = false →
      (is_verified_crawler lib dns fetch now cache ip ua true).1.is_legitimate =
        (is_verified_crawler lib dns fetch now cache ip ua true).1.rdns_verified) := by
  simp only [is_verified_crawler, h]
  constructor <;> intro hs <;> simp [verdict_and_reason, hs]

/-- Witness for C2 at the googlebot identity (which has a range source). -/
theorem c2_witness :
    extract_crawler_identity "Googlebot" = some "googlebot" ∧
    ((hasRangeSource "googlebot" = true →
      (is_verified_crawler ipv4Lib dns_ok fetch_good 0 empty_cache "66.249.66.1" "Googlebot" true).1.is_legitimate =
        ((is_verified_crawler ipv4Lib dns_ok fetch_good 0 empty_cache "66.249.66.1" "Googlebot" true).1.rdns_verified &&
         (is_verified_crawler ipv4Lib dns_ok fetch_good 0 empty_cache "66.249.66.1" "Googlebot" true).1.ip_range_verified)) ∧
     (hasRangeSource "googlebot" = false →
      (is_verified_crawler ipv4Lib dns_ok fetch_good 0 empty_cache "66.249.66.1" "Googlebot" true).1.is_legitimate =
        (is_verified_crawler ipv4Lib dns_ok fetch_good 0 empty_cache "66.249.66.1" "Googlebot" true).1.rdns_verified)) :=
  ⟨by rfl,
   c2_require_both_policy ipv4Lib dns_ok fetch_good 0 empty_cache "66.249.66.1"
     "Googlebot" "googlebot" (by rfl)⟩

/-- C3: for a recognized identity under requireBoth = false (the default),
the verdict is the disjunction of the DNS check and the range check. -/
theorem c3_default_policy (lib : IpLib) (dns : DnsOracle)
    (fetch : String → Option (List CidrEntry)) (now : Nat) (cache : RangeCache)
    (ip ua crawler_key : String)
    (h : extract_crawler_identity ua = some crawler_key) :
    (is_verified_crawler lib dns fetch now cache ip ua false).1.is_legitimate =
      ((is_verified_crawler lib dns fetch now cache ip ua false).1.rdns_verified ||
       (is_verified_crawler lib dns fetch now cache ip ua false).1.ip_range_verified) := by
  simp only [is_verified_crawler, h]
  simp [verdict_and_reason]

/-- Witness for C3: DNS fails but the range check passes, so the default
policy accepts. -/
theorem c3_witness :
    extract_crawler_identity "Googlebot" = some "googlebot" ∧
    (is_verified_crawler ipv4Lib dns_fail fetch_good 0 empty_cache "66.249.66.1" "Googlebot" false).1.is_legitimate =
      ((is_verified_crawler ipv4Lib dns_fail fetch_good 0 empty_cache "66.249.66.1" "Googlebot" false).1.rdns_verified ||
       (is_verified_crawler ipv4Lib dns_fail fetch_good 0 empty_cache "66.249.66.1" "Googlebot" false).1.ip_range_verified) :=
  ⟨by rfl,
   c3_default_policy ipv4Lib dns_fail fetch_good 0 empty_cache "66.249.66.1"
     "Googlebot" "googlebot" (by rfl)⟩

/-- C6: for every source address and requireBoth flag, a declared agent
that does not classify to a known identity yields verdict false with the
dedicated unrecognized-identity reason. -/
theorem c6_unrecognized_identity (lib : IpLib) (dns : DnsOracle)
    (fetch : String → Option (List CidrEntry)) (now : Nat) (cache : RangeCache)
    (ip ua : String) (require_both_checks : Bool)
    (h : extract_crawler_identity ua = none) :
    (is_verified_crawler lib dns fetch now cache ip ua require_both_checks).1.is_legitimate = false ∧
    (is_verified_crawler lib dns fetch now cache ip ua require_both_checks).1.reason =
      "User-Agent does not claim to be a known search crawler" := by
  simp [is_verified_crawler, h]

/-- Witness for C6 at a plain browser-style agent string. -/
theorem c6_witness :
    extract_crawler_identity "curl/8.0" = none ∧
    (is_verified_crawler ipv4Lib dns_ok fetch_good 0 empty_cache "1.2.3.4" "curl/8.0" false).1.is_legitimate = false ∧
    (is_verified_crawler ipv4Lib dns_ok fetch_good 0 empty_cache "1.2.3.4" "curl/8.0" false).1.reason =
      "User-Agent does not claim to be a known search crawler" :=
  ⟨by rfl,
   c6_unrecognized_identity ipv4Lib dns_ok fetch_good 0 empty_cache "1.2.3.4"
     "curl/8.0" false (by rfl)⟩

/-- C9: is_verified_crawler always returns a complete result echoing its
inputs, for every oracle behaviour (lookup failures, fetch failures and
malformed data are Option branches of the oracles, so no error can reach
the caller). -/
theorem c9_total_result (lib : IpLib) (dns : DnsOracle)
    (fetch : String → Option (List CidrEntry)) (now : Nat) (cache : RangeCache)
    (ip ua : String) (require_both_checks : Bool) :
    (is_verified_crawler lib dns fetch now cache ip ua require_both_checks).1.ip_address = ip ∧
    (is_verified_crawler lib dns fetch now cache ip ua require_both_checks).1.user_agent = ua ∧
    (is_verified_crawler lib dns fetch now cache ip ua require_both_checks).1.claimed_crawler =
      extract_crawler_identity ua := by
  cases h : extract_crawler_identity ua <;> simp [is_verified_crawler, h]

/-- Every identity key that extract_crawler_identity can return is a value
of the fragment table. -/
theorem extract_key_mem (ua crawler_key : String)
    (h : extract_crawler_identity ua = some crawler_key) :
    crawler_key ∈ UA_TO_CRAWLER_KEY.map Prod.snd := by
  unfold extract_crawler_identity at h
  cases hf : UA_TO_CRAWLER_KEY.find?
      (fun p => infix_of_chars p.1.toList (to_lower_chars ua)) with
  | none => rw [hf] at h; simp at h
  | some pr =>
    rw [hf] at h
    simp only [Option.map_some', Option.some.injEq] at h
    exact List.mem_map.mpr ⟨pr, List.mem_of_find?_eq_some hf, h⟩

/-- C10: every identity the classifier can return has a non-empty reverse
DNS pattern list, so the suffix-validation step of verify_rdns never runs
with the empty default pattern set for a classified identity. -/
theorem c10_patterns_nonempty (ua crawler_key : String)
    (h : extract_crawler_identity ua = some crawler_key) :
    (CRAWLER_RDNS_PATTERNS.lookup crawler_key).getD [] ≠ [] := by
  have hmem := extract_key_mem ua crawler_key h
  fin_cases hmem <;> decide

/-- Witness for C10 at the googlebot identity. -/
theorem c10_witness :
    extract_crawler_identity "Googlebot" = some "googlebot" ∧
    (CRAWLER_RDNS_PATTERNS.lookup "googlebot").getD [] ≠ [] :=
  ⟨by rfl, c10_patterns_nonempty "Googlebot" "googlebot" (by rfl)⟩

/-- C7: after a successful fetch at time t0, a second call within the TTL
issues no network call and serves the cached list, while a call at or
after TTL expiry issues a new network call and, on success, stores the
entry with the new timestamp. -/
theorem c7_cache_ttl (fetch fetch2 : String → Option (List CidrEntry))
    (cache : RangeCache) (crawler_key url : String)
    (data data2 : List CidrEntry) (t0 t1 t2 : Nat)
    (h0 : cache crawler_key = none)
    (hurl : (CRAWLER_IP_RANGE_SOURCES.lookup crawler_key).join = some url)
    (hne : url ≠ "")
    (hf : fetch url = some data)
    (hf2 : fetch2 url = some data2) :
    (fetch_ip_ranges fetch t0 cache crawler_key).2.2 = 1 ∧
    (t1 - t0 < IP_RANGE_CACHE_TTL →
      fetch_ip_ranges fetch2 t1 (fetch_ip_ranges fetch t0 cache crawler_key).2.1 crawler_key =
        (extract_ranges_from data,
         (fetch_ip_ranges fetch t0 cache crawler_key).2.1, 0)) ∧
    (IP_RANGE_CACHE_TTL ≤ t2 - t0 →
      (fetch_ip_ranges fetch2 t2 (fetch_ip_ranges fetch t0 cache crawler_key).2.1 crawler_key).2.2 = 1 ∧
      (fetch_ip_ranges fetch2 t2 (fetch_ip_ranges fetch t0 cache crawler_key).2.1 crawler_key).2.1 crawler_key =
        some (extract_ranges_from data2, t2)) := by
  have e1 : fetch_ip_ranges fetch t0 cache crawler_key =
      (extract_ranges_from data,
       cache_update cache crawler_key (extract_ranges_from data, t0), 1) := by
    unfold fetch_ip_ranges fetch_fresh
    rw [h0, hurl]
    simp [hne, hf]
  refine ⟨by rw [e1], ?_, ?_⟩
  · intro ht1
    rw [e1]
    unfold fetch_ip_ranges
    simp [cache_update, ht1]
  · intro ht2
    rw [e1]
    unfold fetch_ip_ranges fetch_fresh
    rw [hurl]
    simp [cache_update, not_lt.mpr ht2, hne, hf2]

/-- Witness for C7: fetch at time 0, re-read at 100 (within the 14400s
TTL), refetch at 14400 with a different range list. -/
theorem c7_witness :
    (fetch_ip_ranges fetch_good 0 empty_cache "googlebot").2.2 = 1 ∧
    (100 - 0 < IP_RANGE_CACHE_TTL →
      fetch_ip_ranges fetch_other 100 (fetch_ip_ranges fetch_good 0 empty_cache "googlebot").2.1 "googlebot" =
        (extract_ranges_from [⟨some "66.249.64.0/19", none⟩],
         (fetch_ip_ranges fetch_good 0 empty_cache "googlebot").2.1, 0)) ∧
    (IP_RANGE_CACHE_TTL ≤ 14400 - 0 →
      (fetch_ip_ranges fetch_other 14400 (fetch_ip_ranges fetch_good 0 empty_cache "googlebot").2.1 "googlebot").2.2 = 1 ∧
      (fetch_ip_ranges fetch_other 14400 (fetch_ip_ranges fetch_good 0 empty_cache "googlebot").2.1 "googlebot").2.1 "googlebot" =
        some (extract_ranges_from [⟨some "10.0.0.0/8", none⟩], 14400)) :=
  c7_cache_ttl fetch_good fetch_other empty_cache "googlebot" googlebot_url
    [⟨some "66.249.64.0/19", none⟩] [⟨some "10.0.0.0/8", none⟩] 0 100 14400
    (by rfl) (by rfl) (by decide) (by rfl) (by rfl)

/-- C4 counterexample: a stale googlebot entry holding a previously
fetched list exists, the refetch fails, and fetch_ip_ranges returns the
empty list (after issuing the network call), not the last good list. -/
theorem c4_counterexample :
    stale_cache "googlebot" = some (["66.249.64.0/19"], 0) ∧
    ¬ (14400 - 0 < IP_RANGE_CACHE_TTL) ∧
    (fetch_ip_ranges fetch_fail 14400 stale_cache "googlebot").2.2 = 1 ∧
    (fetch_ip_ranges fetch_fail 14400 stale_cache "googlebot").1 = [] ∧
    (fetch_ip_ranges fetch_fail 14400 stale_cache "googlebot").1 ≠ ["66.249.64.0/19"] :=
  ⟨by rfl, by decide, by rfl, by rfl, by decide⟩

/-- C4 amended: when the cached entry is stale and the refetch fails,
fetch_ip_ranges returns the empty list and leaves the cached entry in
place, even though a last successfully fetched list exists. -/
theorem c4_amended_stale_refetch_failure (fetch : String → Option (List CidrEntry))
    (now : Nat) (cache : RangeCache) (crawler_key : String)
    (ranges : List String) (t0 : Nat)
    (hc : cache crawler_key = some (ranges, t0))
    (hstale : ¬ (now - t0 < IP_RANGE_CACHE_TTL))
    (hfail : ∀ u, fetch u = none) :
    (fetch_ip_ranges fetch now cache crawler_key).1 = [] ∧
    (fetch_ip_ranges fetch now cache crawler_key).2.1 crawler_key = some (ranges, t0) := by
  unfold fetch_ip_ranges fetch_fresh
  rw [hc]
  cases hj : (CRAWLER_IP_RANGE_SOURCES.lookup crawler_key).join with
  | none => simp [hstale, hc]
  | some url =>
    by_cases hu : url = "" <;> simp [hstale, hu, hfail url, hc]

/-- Witness for C4 amended at the stale googlebot cache. -/
theorem c4_amended_witness :
    (fetch_ip_ranges fetch_fail 14400 stale_cache "googlebot").1 = [] ∧
    (fetch_ip_ranges fetch_fail 14400 stale_cache "googlebot").2.1 "googlebot" =
      some (["66.249.64.0/19"], 0) :=
  c4_amended_stale_refetch_failure fetch_fail 14400 stale_cache "googlebot"
    ["66.249.64.0/19"] 0 (by rfl) (by decide) (fun u => rfl)

/-- C8: malformed CIDR strings in the range list are skipped individually,
so a valid entry elsewhere in the same list still makes the containment
check succeed; and a malformed input address makes verify_ip_range return
false (the embedding is total, so nothing is raised). -/
theorem c8_malformed_skipped (lib : IpLib) (fetch : String → Option (List CidrEntry))
    (now : Nat) (cache : RangeCache) (crawler_key : String) (ranges : List String)
    (hr : (fetch_ip_ranges fetch now cache crawler_key).1 = ranges) :
    (∀ ip ipv good net, lib.parseAddr ip = some ipv → good ∈ ranges →
       lib.parseNet good = some net → lib.memNet ipv net = true →
       (verify_ip_range lib fetch now cache ip crawler_key).1 = true) ∧
    (∀ ip, lib.parseAddr ip = none →
       (verify_ip_range lib fetch now cache ip crawler_key).1 = false) := by
  constructor
  · intro ip ipv good net ha hm hn hmem
    simp only [verify_ip_range]
    rw [hr]
    have hne : ranges.isEmpty = false := by
      cases ranges
      · cases hm
      · rfl
    simp only [hne, Bool.false_eq_true, if_false, ha]
    simp only [List.any_eq_true]
    exact ⟨good, hm, by rw [hn]; exact hmem⟩
  · intro ip ha
    simp only [verify_ip_range]
    by_cases he : (fetch_ip_ranges fetch now cache crawler_key).1.isEmpty <;>
      simp [he, ha]

/-- Witness for C8: a list holding a malformed entry before a valid
matching entry still verifies, and a malformed address yields false. -/
theorem c8_witness :
    (fetch_ip_ranges fetch_mixed 0 empty_cache "googlebot").1 =
      ["not a cidr", "66.249.64.0/19"] ∧
    ipv4Lib.parseNet "not a cidr" = none ∧
    (verify_ip_range ipv4Lib fetch_mixed 0 empty_cache "66.249.66.1" "googlebot").1 = true ∧
    (verify_ip_range ipv4Lib fetch_mixed 0 empty_cache "999.9.9.9" "googlebot").1 = false :=
  ⟨by rfl, by rfl,
   (c8_malformed_skipped ipv4Lib fetch_mixed 0 empty_cache "googlebot"
      ["not a cidr", "66.249.64.0/19"] (by rfl)).1
     "66.249.66.1" 1123631617 "66.249.64.0/19" (1123631104, 19)
     (by rfl) (by decide) (by rfl) (by rfl),
   (c8_malformed_skipped ipv4Lib fetch_mixed 0 empty_cache "googlebot"
      ["not a cidr", "66.249.64.0/19"] (by rfl)).2 "999.9.9.9" (by rfl)⟩

/-- C5 counterexample: under requireBoth = true for an identity with a
range source, a DNS-only pass and a range-only pass produce the same
justification string, so the outcome category is not recoverable from the
justification in that mode. -/
theorem c5_counterexample :
    (is_verified_crawler ipv4Lib dns_ok fetch_fail 0 empty_cache "66.249.66.1" "Googlebot" true).1.rdns_verified = true ∧
    (is_verified_crawler ipv4Lib dns_ok fetch_fail 0 empty_cache "66.249.66.1" "Googlebot" true).1.ip_range_verified = false ∧
    (is_verified_crawler ipv4Lib dns_fail fetch_good 0 empty_cache "66.249.66.1" "Googlebot" true).1.rdns_verified = false ∧
    (is_verified_crawler ipv4Lib dns_fail fetch_good 0 empty_cache "66.249.66.1" "Googlebot" true).1.ip_range_verified = true ∧
    (is_verified_crawler ipv4Lib dns_ok fetch_fail 0 empty_cache "66.249.66.1" "Googlebot" true).1.reason =
      (is_verified_crawler ipv4Lib dns_fail fetch_good 0 empty_cache "66.249.66.1" "Googlebot" true).1.reason :=
  ⟨by rfl, by rfl, by rfl, by rfl, by rfl⟩

/-- C5 amended: in the default policy mode (requireBoth = false) the
justification does distinguish the four outcome categories for every
classified identity: the pair of sub-check booleans is recoverable from
the reason string alone. -/
theorem c5_amended_default_mode_distinguishes (ua crawler_key : String)
    (h : extract_crawler_identity ua = some crawler_key)
    (rv1 rngv1 rv2 rngv2 : Bool)
    (hr : (verdict_and_reason crawler_key rv1 rngv1 false).2 =
          (verdict_and_reason crawler_key rv2 rngv2 false).2) :
    rv1 = rv2 ∧ rngv1 = rngv2 := by
  have hmem := extract_key_mem ua crawler_key h
  fin_cases hmem <;> revert hr <;>
    cases rv1 <;> cases rngv1 <;> cases rv2 <;> cases rngv2 <;> decide

/-- Witness for C5 amended at the googlebot identity with equal
categories. -/
theorem c5_amended_witness :
    extract_crawler_identity "Googlebot" = some "googlebot" ∧
    (true = true ∧ false = false) :=
  ⟨by rfl,
   c5_amended_default_mode_distinguishes "Googlebot" "googlebot" (by rfl)
     true false true false (by rfl)⟩

end BotVerif
